import Mathlib

/-
  Shallow embedding of src/components/sys/drivers/stepper.c
  (Lua-RTOS-ESP32 stepper driver).

  The embedding follows the C source function by function:
  * the pulse encoder inside acceleration_profile_task (lines 189-277)
    becomes encodeTicks / encodeRest;
  * the end-of-transmission branch (lines 178-185, reached through the
    `continue` statement) becomes endFlood;
  * the per-channel body of the generation task (lines 174-297) becomes
    stepLoop / fillChannel;
  * the circular-buffer index discipline of rmt_isr (lines 130-139) and of
    the transmission-start window copy (lines 317-322) becomes bufStep;
  * stepper_setup's slot scan (lines 356-367), stepper_move (496-544),
    stepper_start's direction loop (549-564) and stepper_stop (605-637)
    become setupScan, stepper_move, stepper_start_dirs and stepper_stop.

  The motion model (external component, motion/motion.h) is abstracted as a
  stream of per-step tick counts, which is exactly the granularity at which
  the driver consumes it: the C code converts motion_next's f64 seconds to
  integer hardware ticks before doing anything with it.
-/

/-- Modelled from the spec: the header drivers/stepper.h is not under src/.
The spec fixes the circular buffer as "fixed capacity (power-of-two sized in
the reference design)" that "must be large enough to hold at least the
hardware's per-half-refill chunk size plus one"; the chunk is the 64-entry
RMT block, so the smallest power of two that fits is 128. -/
def STEPPER_RMT_DATA_SIZE : Nat := 128

/-- Modelled from the spec: the hardware playback window ("fixed-size
playback window" of the pulse peripheral). stepper_setup configures one RMT
memory block per channel (conf0.mem_size = 1 in src), which holds 64
entries. -/
def STEPPER_RMT_BUFF_SIZE : Nat := 64

/-- Modelled from the spec: the fixed pulse-assertion width. The source
comments fix the tick at 25 ns (div_cnt = 2 on the 80 MHz APB clock) and the
step pulse at "H for 1 usec", hence 40 ticks. -/
def STEPPER_PULSE_TICKS : Nat := 40

/-- Subtraction of 32-bit unsigned C values: rmt_ticks is a uint32_t, so
`a - b` in the source is subtraction modulo 2^32. -/
def sub32 (a b : Nat) : Nat := (a + (4294967296 - b % 4294967296)) % 4294967296

/-- One RMT item: two (level, duration) pairs (rmt_item32_t). The source
writes rmt_item.val into the buffer; an item whose val is 0 (all four fields
zero) is the end-of-transmission marker. -/
structure RmtItem where
  level0 : Nat
  duration0 : Nat
  level1 : Nat
  duration1 : Nat
deriving DecidableEq, Repr

/-- The end-of-transmission entry: the source writes the literal value 0
(pstepper->rmt_data[head] = 0), i.e. both levels low and both durations 0. -/
def endItem : RmtItem := ⟨0, 0, 0, 0⟩

/-- Sum of all duration fields of a list of entries. -/
def durSum (es : List RmtItem) : Nat :=
  (es.map (fun e => e.duration0 + e.duration1)).sum

/-- Continuation iterations of the inner encoding loop, i.e. the iterations
of `while (rmt_ticks > 0)` with first == 0 (source lines 226-266): each
entry carries up to two idle half-periods of at most 32767 ticks; if the
buffer has no free slot the loop suspends, leaving the unencoded ticks as
the carry (rmt_ticks_remain).  Returns (entries written, new head, carry).
The first argument is a structural-recursion bound; encodeRest starts it at
the tick count itself, which can never run out because every recursive pass
consumes 65534 ticks (so the bound always dominates the tick count, and the
bound-0 case coincides with the ticks-0 case). -/
def encodeRestGo : Nat → Nat → Nat → Nat → List RmtItem × Nat × Nat
  | 0, _, head, _ => ([], head, 0)
  | bound + 1, ticks, head, tail =>
    if ticks = 0 then ([], head, 0)
    else if (head + 1) % STEPPER_RMT_DATA_SIZE = tail then
      -- no space in buffer: wait for next iteration (lines 262-265)
      ([], head, ticks)
    else if ticks < 65534 then
      -- enough space this time using level0 and level1 (lines 235-245)
      ([⟨0, ticks / 2, 0, ticks - ticks / 2⟩], (head + 1) % STEPPER_RMT_DATA_SIZE, 0)
    else
      -- not enough space: two full half-periods (lines 246-255)
      let r := encodeRestGo bound (sub32 (sub32 ticks 32767) 32767)
        ((head + 1) % STEPPER_RMT_DATA_SIZE) tail
      (⟨0, 32767, 0, 32767⟩ :: r.1, r.2.1, r.2.2)

/-- The while-loop iterations with first == 0, entered with the given
remaining tick count. -/
def encodeRest (ticks head tail : Nat) : List RmtItem × Nat × Nat :=
  encodeRestGo ticks ticks head tail

/-- The inner encoding loop `while (rmt_ticks > 0)` (source lines 203-270)
for one step: the first iteration (first == 1, lines 204-225) emits the
assert-level pulse of STEPPER_PULSE_TICKS followed by the idle remainder,
carrying the excess into encodeRest when the remainder exceeds the 15-bit
field maximum.  The caller (the step loop) guarantees a free slot for the
first entry, exactly as the C loop condition does.
Returns (entries written, new head, carry). -/
def encodeTicks (ticks head tail : Nat) : List RmtItem × Nat × Nat :=
  if ticks = 0 then ([], head, 0)
  else if sub32 ticks STEPPER_PULSE_TICKS < 32767 then
    ([⟨1, STEPPER_PULSE_TICKS, 0, sub32 ticks STEPPER_PULSE_TICKS⟩],
      (head + 1) % STEPPER_RMT_DATA_SIZE, 0)
  else
    let r := encodeRest (sub32 ticks 32767) ((head + 1) % STEPPER_RMT_DATA_SIZE) tail
    (⟨1, STEPPER_PULSE_TICKS, 0, 32767⟩ :: r.1, r.2.1, r.2.2)

/-- Result of one generation-task fill cycle for one channel: the entries
written to the channel's circular buffer, how many times the motion model
was queried, and the new values of the channel's steps, rmt_ticks_remain
and rmt_data_head fields (rmt_data_tail is not written by the task's
encoding loop). -/
structure CycleOut where
  entries : List RmtItem
  queries : Nat
  steps : Nat
  remain : Nat
  head : Nat
deriving DecidableEq, Repr

/-- The step loop `while ((pstepper->steps > 0) && (next != tail))` of the
generation task (source lines 189-297).  The motion model is a stream of
per-step tick counts: the k-th query returns motion k, stored into the
uint32_t rmt_ticks field (hence the mod 2^32); qidx counts the queries made
so far.  A step whose carry (rmt_ticks_remain) is nonzero is resumed from
the carry without querying the stream (lines 195-201); the steps counter is
decremented only when the carry returns to zero (lines 272-277); after the
last step an end-of-transmission entry is pushed if a slot is free (lines
279-291). -/
def stepLoop (motion : Nat → Nat) : Nat → Nat → Nat → Nat → Nat → CycleOut
  | _, 0, remain, head, _ => ⟨[], 0, 0, remain, head⟩
  | qidx, steps + 1, remain, head, tail =>
    if (head + 1) % STEPPER_RMT_DATA_SIZE = tail then
      -- buffer full before the step starts: the loop is not entered
      ⟨[], 0, steps + 1, remain, head⟩
    else
      let ticks := if remain = 0 then motion qidx % 4294967296 else remain
      let q := if remain = 0 then 1 else 0
      let e := encodeTicks ticks head tail
      if 0 < e.2.2 then
        -- buffer filled mid-step: carry saved, this channel's cycle ends
        ⟨e.1, q, steps + 1, e.2.2, e.2.1⟩
      else if steps = 0 then
        -- last step finished: RMT end condition (lines 279-291)
        if (e.2.1 + 1) % STEPPER_RMT_DATA_SIZE = tail then
          ⟨e.1, q, 0, 0, e.2.1⟩
        else
          ⟨e.1 ++ [endItem], q, 0, 0, (e.2.1 + 1) % STEPPER_RMT_DATA_SIZE⟩
      else
        let r := stepLoop motion (qidx + q) steps 0 e.2.1 tail
        ⟨e.1 ++ r.entries, q + r.queries, r.steps, r.remain, r.head⟩

/-- The end-of-transmission branch of the generation task (source lines
176-185).  Because the branch ends in `continue`, which in C jumps back to
the `while (cycle_mask)` condition WITHOUT running the loop tail that
shifts cycle_mask and advances pstepper, the branch repeats for the same
channel until the buffer is full.  The first argument bounds the recursion;
the caller passes the buffer capacity, which dominates the number of free
slots. -/
def endFlood : Nat → Nat → Nat → List RmtItem × Nat
  | 0, head, _ => ([], head)
  | bound + 1, head, tail =>
    if (head + 1) % STEPPER_RMT_DATA_SIZE = tail then ([], head)
    else
      let r := endFlood bound ((head + 1) % STEPPER_RMT_DATA_SIZE) tail
      (endItem :: r.1, r.2)

/-- One full fill cycle of the generation task for one requested channel
(the body of `if (cycle_mask & 0x01)`, source lines 174-297): the channel
state is (steps, rmt_ticks_remain, rmt_data_head, rmt_data_tail).  With
steps == 0 the end-condition branch floods end entries until the buffer is
full (see endFlood); otherwise the step loop encodes steps until the buffer
is full or the steps are exhausted. -/
def fillChannel (motion : Nat → Nat) (qidx steps remain head tail : Nat) : CycleOut :=
  if steps = 0 then
    let f := endFlood STEPPER_RMT_DATA_SIZE head tail
    ⟨f.1, 0, 0, remain, f.2⟩
  else
    stepLoop motion qidx steps remain head tail

/-- Number of free slots of the circular buffer: the entries that can still
be pushed before (head+1) % capacity == tail. -/
def freeSlots (head tail : Nat) : Nat :=
  (tail + STEPPER_RMT_DATA_SIZE - head - 1) % STEPPER_RMT_DATA_SIZE


/-- State shared between stepper_start, stepper_stop and the ISR: the
start_mask and start_num globals (source lines 72-73).  start_num is a
uint8_t in the source; it is modelled as an integer so that "never below
zero" is a statement and not a typing accident.  stopped records, in order,
the channels whose RMT transmission stepper_stop halts (the register writes
of source lines 616-619). -/
structure StopSt where
  mask : Nat
  num : Int
  stopped : List Nat
deriving DecidableEq, Repr

/-- C expression start_mask &= ~mask with 32-bit operands (source line
625). -/
def andNot32 (a m : Nat) : Nat := a &&& (4294967295 ^^^ (m % 4294967296))

/-- The stepper_stop loop (source lines 612-630):
while (testMask != (1 << (NSTEP - 1))) with testMask = 1 << ch.  Note the
loop body tests (start_mask & testMask) - the set of ACTIVE channels - not
the requested mask, and clears the requested mask bits from start_mask.
The first argument bounds the recursion; stepper_stop passes nstep, which
is exact since the loop runs for ch = 0 .. nstep-2. -/
def stopLoop (nstep mask : Nat) : Nat → Nat → StopSt → StopSt
  | 0, _, s => s
  | bound + 1, ch, s =>
    if 1 <<< ch = 1 <<< (nstep - 1) then s
    else
      let s1 :=
        if s.mask &&& (1 <<< ch) ≠ 0 then
          { mask := andNot32 s.mask mask,
            num := if 0 < s.num then s.num - 1 else s.num,
            stopped := s.stopped ++ [ch] }
        else s
      stopLoop nstep mask bound (ch + 1) s1

/-- stepper_stop (source lines 605-637): runs the stop loop and then, if
start_num reached zero, notifies the task blocked in stepper_start (the
returned Bool). nstep is the NSTEP configuration constant of the missing
header drivers/stepper.h, kept as a parameter. -/
def stepper_stop (nstep mask : Nat) (s : StopSt) : StopSt × Bool :=
  let s1 := stopLoop nstep mask nstep 0 s
  (s1, s1.num = 0)

/-- The direction-pin loop of stepper_start (source lines 550-564):
while (testMask != (1 << (NSTEP - 1))), for each channel whose bit is set
in the requested mask, write the channel's stored direction to its
direction pin.  Returns the pin writes performed, as (channel, level)
pairs; dirs gives each channel's stored dir bit.  The first argument
bounds the recursion; stepper_start_dirs passes nstep, which is exact. -/
def startDirLoop (nstep mask : Nat) (dirs : Nat → Bool) :
    Nat → Nat → List (Nat × Bool) → List (Nat × Bool)
  | 0, _, acc => acc
  | bound + 1, ch, acc =>
    if 1 <<< ch = 1 <<< (nstep - 1) then acc
    else
      let acc1 := if mask &&& (1 <<< ch) ≠ 0 then acc ++ [(ch, dirs ch)] else acc
      startDirLoop nstep mask dirs bound (ch + 1) acc1

/-- The direction-pin writes performed by stepper_start(mask). -/
def stepper_start_dirs (nstep mask : Nat) (dirs : Nat → Bool) : List (Nat × Bool) :=
  startDirLoop nstep mask dirs nstep 0 []

/-- The free-slot scan of stepper_setup (source lines 356-361):
for (i = 0; i < NSTEP; i++) if (!stepper[i].setup) \x7b *unit = i; break; \x7d
Returns the final value of i together with the value written to *unit (none
when the loop fell through without finding a free slot, in which case *unit
is never assigned). -/
def setupScan : List Bool → Nat × Option Nat
  | [] => (0, none)
  | configured :: rest =>
    if !configured then (0, some 0)
    else
      let r := setupScan rest
      (r.1 + 1, r.2.map (· + 1))

/-- How stepper_setup continues after the scan (source lines 363-370):
noMoreUnits models the early return with STEPPER_ERR_NO_MORE_UNITS;
proceedWith u models falling through to configure slot u; and
proceedUninitialized models falling through with *unit never assigned
(the C code then reads the caller's uninitialized variable). -/
inductive SetupOutcome where
  | noMoreUnits : SetupOutcome
  | proceedWith : Nat → SetupOutcome
  | proceedUninitialized : SetupOutcome
deriving DecidableEq, Repr

/-- Slot selection of stepper_setup: the scan followed by the guard
if (i > NSTEP) return NoMoreUnits (source line 363); flags lists the setup
flag of each of the NSTEP channel slots. -/
def stepper_setup_slot (flags : List Bool) : SetupOutcome :=
  let r := setupScan flags
  if r.1 > flags.length then SetupOutcome.noMoreUnits
  else
    match r.2 with
    | some u => SetupOutcome.proceedWith u
    | none => SetupOutcome.proceedUninitialized

/-- Per-channel state touched by stepper_move (the stepper_t fields of the
missing header drivers/stepper.h, as used by the source).  C floats are
modelled as rationals: the claims settled here depend only on control flow
and on which fields get written, not on float rounding.  motionCons stands
for the motion-model instance prepared by motion_prepare (an external
component): it records the s-curve constraints built at source lines
518-530. -/
structure Chan where
  setup : Bool
  dir : Bool
  steps : Nat
  remain : Nat
  head : Nat
  tail : Nat
  offset : Nat
  rmtStart : Bool
  rmtStarted : Bool
  motionCons : ℚ × ℚ × ℚ × ℚ × ℚ
  stepsPerUnit : ℚ
deriving DecidableEq

/-- Outcome of stepper_move: the two driver errors, the silent
out-of-bounds array access stepper[NSTEP] that the C code performs when
unit == NSTEP (undefined behavior, kept as a distinguished outcome), or
success. -/
inductive MoveResult where
  | invalidUnit : MoveResult
  | unitNotSetup : MoveResult
  | oobAccess : MoveResult
  | ok : MoveResult
deriving DecidableEq, Repr

/-- stepper_move (source lines 496-544).  The sanity check is the source's
`if (unit > NSTEP)` - note the strict inequality, which lets unit == NSTEP
through to the stepper[unit] accesses.  On success it stores the direction
(sign of the requested distance), prepares the motion model, computes the
step count and resets carry, buffer indices, offset and transmission
flags. -/
def stepper_move (chans : List Chan) (unit : Nat) (units v0 v a j : ℚ) :
    MoveResult × List Chan :=
  if unit > chans.length then (MoveResult.invalidUnit, chans)
  else
    match chans[unit]? with
    | none => (MoveResult.oobAccess, chans)
    | some c =>
      if !c.setup then (MoveResult.unitNotSetup, chans)
      else
        let c1 : Chan :=
          { c with
            dir := decide (0 ≤ units),
            motionCons := (v0, v, a, j, |units|),
            steps := (⌊|units| * c.stepsPerUnit⌋).toNat,
            remain := 0, head := 0, tail := 0, offset := 0,
            rmtStart := true, rmtStarted := false }
        (MoveResult.ok, chans.set unit c1)

/-- A configured channel at rest, used as the concrete channel table entry
in the evaluations below. -/
def defChan : Chan :=
  { setup := true, dir := false, steps := 0, remain := 0, head := 0,
    tail := 0, offset := 0, rmtStart := false, rmtStarted := false,
    motionCons := (0, 0, 0, 0, 0), stepsPerUnit := 1 }

/-- An unconfigured channel slot (all fields zero, as after stepper_init's
memset). -/
def unsetChan : Chan := { defChan with setup := false }

/-- Circular-buffer index state of one channel, with event counters:
pushes and pops performed, and emptyReads counting reads started while the
buffer was empty (tail == head). -/
structure BufSt where
  head : Nat
  tail : Nat
  pushes : Nat
  pops : Nat
  emptyReads : Nat
deriving DecidableEq, Repr

/-- One guarded producer push by the generation task: every write of the
encoding loop is guarded by next != tail (source lines 176-297). -/
def bufTryPush (s : BufSt) : BufSt :=
  if (s.head + 1) % STEPPER_RMT_DATA_SIZE = s.tail then s
  else { s with head := (s.head + 1) % STEPPER_RMT_DATA_SIZE, pushes := s.pushes + 1 }

/-- The ISR threshold-interrupt drain (source lines 132-137): pop up to
half a hardware window while the buffer is not empty. -/
def isrDrainLoop : Nat → BufSt → BufSt
  | 0, s => s
  | n + 1, s =>
    if s.tail = s.head then s
    else isrDrainLoop n
      { s with tail := (s.tail + 1) % STEPPER_RMT_DATA_SIZE, pops := s.pops + 1 }

/-- The transmission-start window copy (source lines 317-322): for
idx = 0 .. STEPPER_RMT_BUFF_SIZE-1 it reads rmt_data at the tail and
advances the tail - with NO emptiness check against the head. -/
def rmtWindowCopy : Nat → BufSt → BufSt
  | 0, s => s
  | n + 1, s =>
    rmtWindowCopy n
      { s with
        tail := (s.tail + 1) % STEPPER_RMT_DATA_SIZE,
        pops := s.pops + 1,
        emptyReads := s.emptyReads + (if s.tail = s.head then 1 else 0) }

/-- The three kinds of access to a channel's circular buffer. -/
inductive BufOp where
  | push : BufOp
  | isrDrain : BufOp
  | windowCopy : BufOp
deriving DecidableEq, Repr

/-- One buffer access. -/
def bufStep : BufOp → BufSt → BufSt
  | BufOp.push, s => bufTryPush s
  | BufOp.isrDrain, s => isrDrainLoop (STEPPER_RMT_BUFF_SIZE / 2) s
  | BufOp.windowCopy, s => rmtWindowCopy STEPPER_RMT_BUFF_SIZE s

/-- An interleaving of buffer accesses, run left to right. -/
def bufRun (ops : List BufOp) (s : BufSt) : BufSt :=
  ops.foldl (fun st op => bufStep op st) s

/-
  Helper lemmas (not claim theorems).
-/

theorem setupScan_fst_le (flags : List Bool) : (setupScan flags).1 ≤ flags.length := by
  induction flags with
  | nil => simp [setupScan]
  | cons b rest ih =>
    by_cases hb : b = false
    · simp [setupScan, hb]
    · have hb1 : b = true := by
        cases b
        · exact absurd rfl hb
        · rfl
      simp only [setupScan, hb1, Bool.not_true, Bool.false_eq_true, if_false,
        List.length_cons]
      omega

theorem endFlood_spec : ∀ (bound head tail : Nat),
    head < STEPPER_RMT_DATA_SIZE → tail < STEPPER_RMT_DATA_SIZE →
    freeSlots head tail < bound →
    (endFlood bound head tail).1 = List.replicate (freeSlots head tail) endItem ∧
    ((endFlood bound head tail).2 + 1) % STEPPER_RMT_DATA_SIZE = tail := by
  intro bound
  induction bound with
  | zero =>
    intro head tail _ _ h3
    exact absurd h3 (Nat.not_lt_zero _)
  | succ n ih =>
    intro head tail h1 h2 h3
    by_cases hfull : (head + 1) % STEPPER_RMT_DATA_SIZE = tail
    · have hzero : freeSlots head tail = 0 := by
        simp only [freeSlots, STEPPER_RMT_DATA_SIZE] at *
        omega
      rw [endFlood]
      simp [hfull, hzero]
    · have hstep : freeSlots ((head + 1) % STEPPER_RMT_DATA_SIZE) tail + 1
          = freeSlots head tail := by
        simp only [freeSlots, STEPPER_RMT_DATA_SIZE] at *
        omega
      obtain ⟨e1, e2⟩ := ih ((head + 1) % STEPPER_RMT_DATA_SIZE) tail
        (by simp only [STEPPER_RMT_DATA_SIZE] at *; omega) h2 (by omega)
      rw [endFlood]
      simp only [hfull, if_false, ite_false, e1, e2, and_true]
      rw [← hstep, List.replicate_succ]

theorem stepLoop_query_invariant (motion : Nat → Nat) :
    ∀ (steps qidx remain head tail : Nat),
    (stepLoop motion qidx steps remain head tail).steps ≤ steps ∧
    (stepLoop motion qidx steps remain head tail).queries + (if 0 < remain then 1 else 0)
      = steps - (stepLoop motion qidx steps remain head tail).steps
        + (if 0 < (stepLoop motion qidx steps remain head tail).remain then 1 else 0) := by
  intro steps
  induction steps with
  | zero => intro qidx remain head tail; simp [stepLoop]
  | succ n ih =>
    intro qidx remain head tail
    rw [stepLoop]
    by_cases hfull : (head + 1) % STEPPER_RMT_DATA_SIZE = tail
    · rw [if_pos hfull]
      simp
    · rw [if_neg hfull]
      dsimp only
      by_cases hsus : 0 < (encodeTicks
          (if remain = 0 then motion qidx % 4294967296 else remain) head tail).2.2
      · rw [if_pos hsus]
        dsimp only
        refine ⟨Nat.le_refl _, ?_⟩
        rw [if_pos hsus]
        split_ifs <;> omega
      · rw [if_neg hsus]
        by_cases hn : n = 0
        · subst hn
          rw [if_pos rfl]
          by_cases hf2 : ((encodeTicks
              (if remain = 0 then motion qidx % 4294967296 else remain) head tail).2.1 + 1)
                % STEPPER_RMT_DATA_SIZE = tail
          · rw [if_pos hf2]
            dsimp only
            refine ⟨Nat.zero_le _, ?_⟩
            split_ifs <;> omega
          · rw [if_neg hf2]
            dsimp only
            refine ⟨Nat.zero_le _, ?_⟩
            split_ifs <;> omega
        · rw [if_neg hn]
          dsimp only
          obtain ⟨ih1, ih2⟩ := ih (qidx + if remain = 0 then 1 else 0)
            0 (encodeTicks
              (if remain = 0 then motion qidx % 4294967296 else remain) head tail).2.1 tail
          simp only [Nat.lt_irrefl, if_false] at ih2
          refine ⟨?_, ?_⟩ <;> split_ifs at * <;> omega

theorem stopLoop_num_nonneg (nstep mask : Nat) :
    ∀ (bound ch : Nat) (s : StopSt), 0 ≤ s.num → 0 ≤ (stopLoop nstep mask bound ch s).num := by
  intro bound
  induction bound with
  | zero => intro ch s h; exact h
  | succ n ih =>
    intro ch s h
    rw [stopLoop]
    by_cases hl : 1 <<< ch = 1 <<< (nstep - 1)
    · rw [if_pos hl]
      exact h
    · rw [if_neg hl]
      apply ih
      by_cases hm : s.mask &&& (1 <<< ch) ≠ 0
      · rw [if_pos hm]
        dsimp only
        split_ifs <;> omega
      · rw [if_neg hm]
        exact h

/-
  Claim theorems.
-/

/-- Claim C1.  The claim states that stop(mask) deactivates exactly the
channels whose bits are set in mask, and that active channels outside mask
keep transmitting and keep their active-mask bit.  The code refutes it:
the loop condition of stepper_stop tests start_mask & testMask (the active
set) rather than mask & testMask.  At NSTEP = 8, with channels 0 and 2
active (start_mask = 5, start_num = 2) and stop requested for channel 2
only (mask = 4), the call halts the hardware of channel 0 - the channel
NOT requested - never halts channel 2, clears channel 2's bit from the
active mask anyway, and leaves start_num = 1 so no wakeup fires. -/
theorem stepper_stop_halts_unrequested_channel :
    stepper_stop 8 4 { mask := 5, num := 2, stopped := [] }
       = ({ mask := 1, num := 1, stopped := [0] }, false) ∧
    0 ∈ (stepper_stop 8 4 { mask := 5, num := 2, stopped := [] }).1.stopped ∧
    2 ∉ (stepper_stop 8 4 { mask := 5, num := 2, stopped := [] }).1.stopped := by
  decide

/-- Claim C2.  The claim states that when all N channel slots are
configured the next stepper_setup call returns the NoMoreUnits error.  The
code refutes it for EVERY slot configuration: the scan loop leaves i at a
value of at most NSTEP, and the guard is the strict `if (i > NSTEP)`, so
the NoMoreUnits return is unreachable; with every slot taken the call
instead proceeds with the output unit variable never assigned.  The second
conjunct confirms the claim's true half: with a free slot, the lowest free
index is selected. -/
theorem stepper_setup_never_returns_no_more_units :
    (∀ flags : List Bool, stepper_setup_slot flags ≠ SetupOutcome.noMoreUnits) ∧
    stepper_setup_slot (List.replicate 8 true) = SetupOutcome.proceedUninitialized ∧
    stepper_setup_slot [true, false, false] = SetupOutcome.proceedWith 1 := by
  refine ⟨?_, by decide, by decide⟩
  intro flags
  have hle := setupScan_fst_le flags
  unfold stepper_setup_slot
  rw [if_neg (by omega)]
  cases hscan : (setupScan flags).2 <;> simp

/-- Claim C3.  The claim states that a step of T hardware ticks is encoded
into entries whose durations sum to exactly T, in particular T = 100000
with the 32767-tick field maximum.  The code refutes it: in the split
branch (lines 216-219) the entry holds STEPPER_PULSE_TICKS + 32767 ticks of
signal but only 32767 is subtracted from the tick budget, so the encoded
durations of a 100000-tick step sum to 100040 = T + STEPPER_PULSE_TICKS
(entries (40,32767), (32767,32767), (849,850)), not 100000.  The carry is
0, i.e. the step completed without suspension: the excess is produced by
the split logic itself. -/
theorem encode_split_step_durations_sum :
    (encodeTicks 100000 0 0).1 =
      [⟨1, 40, 0, 32767⟩, ⟨0, 32767, 0, 32767⟩, ⟨0, 849, 0, 850⟩] ∧
    (encodeTicks 100000 0 0).2.2 = 0 ∧
    durSum (encodeTicks 100000 0 0).1 = 100040 ∧
    durSum (encodeTicks 100000 0 0).1 ≠ 100000 := by
  decide

/-- Claim C4.  The claim states that start(mask) asserts the direction pin
of every masked channel, including the highest channel N-1.  The code
refutes it: the loop runs while testMask != (1 << (NSTEP-1)), i.e. for
channels 0 .. NSTEP-2 only.  At NSTEP = 8, a start requesting only channel
7 (mask = 128) writes no direction pin at all, and a start requesting all
channels (mask = 255) writes pins for channels 0-6 only. -/
theorem stepper_start_skips_highest_channel :
    stepper_start_dirs 8 128 (fun _ => true) = [] ∧
    stepper_start_dirs 8 255 (fun _ => true) =
      [(0, true), (1, true), (2, true), (3, true), (4, true), (5, true), (6, true)] := by
  decide

/-- Claim C5, counterexample.  The claim states that a fill-cycle request
for a channel whose remaining step count is zero appends AT MOST ONE
end-of-transmission entry.  The code refutes it: the end-condition branch
ends in `continue`, which skips the loop tail that advances to the next
channel, so a single request floods the buffer with end entries - from an
empty 128-slot buffer, 127 of them. -/
theorem end_marker_flood_counterexample :
    ¬ ((fillChannel (fun _ => 0) 0 0 0 0 0).entries.length ≤ 1) ∧
    (fillChannel (fun _ => 0) 0 0 0 0 0).entries.length = 127 := by
  set_option maxRecDepth 8000 in decide

/-- Claim C5, amended.  What the code actually guarantees: a fill-cycle
request for a channel with zero remaining steps appends exactly one
end-of-transmission entry PER FREE SLOT - i.e. end entries until the
buffer is full - and encodes no pulse entries (every appended entry is the
end marker) and never queries the motion model; afterwards the buffer is
full, so later requests append nothing more. -/
theorem fill_cycle_zero_steps_fills_buffer (motion : Nat → Nat)
    (qidx remain head tail : Nat)
    (hh : head < STEPPER_RMT_DATA_SIZE) (ht : tail < STEPPER_RMT_DATA_SIZE) :
    (fillChannel motion qidx 0 remain head tail).entries
        = List.replicate (freeSlots head tail) endItem ∧
    ((fillChannel motion qidx 0 remain head tail).head + 1) % STEPPER_RMT_DATA_SIZE
        = tail ∧
    (fillChannel motion qidx 0 remain head tail).queries = 0 := by
  have hfree : freeSlots head tail < STEPPER_RMT_DATA_SIZE := by
    simp only [freeSlots, STEPPER_RMT_DATA_SIZE]
    omega
  obtain ⟨e1, e2⟩ := endFlood_spec STEPPER_RMT_DATA_SIZE head tail hh ht hfree
  unfold fillChannel
  rw [if_pos rfl]
  exact ⟨e1, e2, rfl⟩

/-- Claim C5, witness for the amended theorem: from an empty buffer
(head = tail = 0) the fill cycle writes one end entry per free slot and
leaves the buffer full. -/
theorem fill_cycle_zero_steps_fills_buffer_witness :
    (fillChannel (fun _ => 0) 0 0 0 0 0).entries
        = List.replicate (freeSlots 0 0) endItem ∧
    ((fillChannel (fun _ => 0) 0 0 0 0 0).head + 1) % STEPPER_RMT_DATA_SIZE = 0 ∧
    (fillChannel (fun _ => 0) 0 0 0 0 0).queries = 0 :=
  fill_cycle_zero_steps_fills_buffer (fun _ => 0) 0 0 0 0 (by decide) (by decide)

/-- Claim C6.  The claim states that every channel id outside 0..N-1, in
particular id = N, makes stepper_move return the InvalidUnit error.  The
code refutes it at id = N: the sanity check is the strict `if (unit >
NSTEP)`, so unit == NSTEP passes it and the function dereferences
stepper[NSTEP], one past the end of the channel array, instead of
returning InvalidUnit.  For ids greater than N, and for in-range
unconfigured channels, the claimed errors do come back (last two
conjuncts). -/
theorem stepper_move_unit_equal_nstep_oob :
    (stepper_move (List.replicate 8 defChan) 8 1 0 0 0 0).1 = MoveResult.oobAccess ∧
    MoveResult.oobAccess ≠ MoveResult.invalidUnit ∧
    (stepper_move (List.replicate 8 defChan) 9 1 0 0 0 0).1 = MoveResult.invalidUnit ∧
    (stepper_move (List.replicate 8 unsetChan) 3 1 0 0 0 0).1 = MoveResult.unitNotSetup := by
  refine ⟨?_, by decide, ?_, ?_⟩ <;> rfl

/-- Claim C7.  The claim states that in every interleaving of producer
writes and consumer reads - including the initial hardware-window copy at
transmission start - no entry is read from an empty buffer and the tail
never advances past the head.  The code refutes it: the window copy of
lines 317-322 advances the tail STEPPER_RMT_BUFF_SIZE (= 64) times with no
emptiness check.  After two guarded pushes into an empty buffer followed
by the transmission-start copy, 64 pops have answered 2 pushes, one of
them starting on an empty buffer (tail == head), and the tail (64) is far
past the head (2). -/
theorem window_copy_reads_past_head :
    bufRun [BufOp.push, BufOp.push, BufOp.windowCopy] ⟨0, 0, 0, 0, 0⟩
      = { head := 2, tail := 64, pushes := 2, pops := 64, emptyReads := 1 } ∧
    (bufRun [BufOp.push, BufOp.push, BufOp.windowCopy] ⟨0, 0, 0, 0, 0⟩).pushes
      < (bufRun [BufOp.push, BufOp.push, BufOp.windowCopy] ⟨0, 0, 0, 0, 0⟩).pops ∧
    0 < (bufRun [BufOp.push, BufOp.push, BufOp.windowCopy] ⟨0, 0, 0, 0, 0⟩).emptyReads := by
  decide

/-- Claim C8.  The motion model is queried exactly once per decrement of
the channel's remaining step count: over any fill cycle, the number of
queries plus the entry pending-carry indicator equals the number of step
decrements plus the exit pending-carry indicator - so a step suspended on
a full buffer (carry left nonzero) is resumed on the next cycle from the
carried tick count without a new query, and its eventual decrement is paid
for by the single query that started it. -/
theorem motion_queried_once_per_decrement (motion : Nat → Nat)
    (qidx steps remain head tail : Nat) :
    (fillChannel motion qidx steps remain head tail).steps ≤ steps ∧
    (fillChannel motion qidx steps remain head tail).queries
        + (if 0 < remain then 1 else 0)
      = steps - (fillChannel motion qidx steps remain head tail).steps
        + (if 0 < (fillChannel motion qidx steps remain head tail).remain then 1 else 0) := by
  unfold fillChannel
  by_cases hs : steps = 0
  · subst hs
    rw [if_pos rfl]
    simp
  · rw [if_neg hs]
    exact stepLoop_query_invariant motion steps qidx remain head tail

/-- Claim C9.  stepper_stop decrements the active-channel count
defensively: the decrement at lines 621-623 is guarded by
`if (start_num > 0)`, so however many channels one call deactivates, and
however often stop is repeated, a nonnegative count never goes below
zero. -/
theorem stepper_stop_num_never_negative (nstep mask : Nat) (s : StopSt)
    (h : 0 ≤ s.num) : 0 ≤ (stepper_stop nstep mask s).1.num :=
  stopLoop_num_nonneg nstep mask nstep 0 s h

/-- Claim C9, witness: stopping with mask 4 from two active channels keeps
the count nonnegative. -/
theorem stepper_stop_num_never_negative_witness :
    (0 : Int) ≤ 2 ∧ 0 ≤ (stepper_stop 8 4 { mask := 5, num := 2, stopped := [] }).1.num :=
  ⟨by decide, stepper_stop_num_never_negative 8 4 { mask := 5, num := 2, stopped := [] }
    (by decide)⟩

/-- Claim C10.  When stepper_move returns InvalidUnit or UnitNotSetup, no
channel state is modified: both error returns happen before any field
write, so the channel table is returned exactly as it was. -/
theorem stepper_move_error_atomic (chans : List Chan) (unit : Nat)
    (units v0 v a j : ℚ)
    (h : (stepper_move chans unit units v0 v a j).1 = MoveResult.invalidUnit ∨
         (stepper_move chans unit units v0 v a j).1 = MoveResult.unitNotSetup) :
    (stepper_move chans unit units v0 v a j).2 = chans := by
  unfold stepper_move at h ⊢
  by_cases hu : unit > chans.length
  · rw [if_pos hu]
  · rw [if_neg hu] at h ⊢
    cases hc : chans[unit]? with
    | none => rfl
    | some c =>
      rw [hc] at h
      dsimp only at h ⊢
      cases hs : c.setup with
      | false => rfl
      | true => simp [hs] at h

/-- Claim C10, witness: a call with unit 9 on an 8-slot table returns
InvalidUnit and leaves the table untouched. -/
theorem stepper_move_error_atomic_witness :
    (stepper_move (List.replicate 8 defChan) 9 1 0 0 0 0).2 = List.replicate 8 defChan :=
  stepper_move_error_atomic (List.replicate 8 defChan) 9 1 0 0 0 0 (Or.inl (by decide))
